import Mathlib

/-
Verification development for the Bybit ticker collector (CryptoParser.py).

Modelling conventions:
- JSON values are a shallow inductive.  JSON numbers are represented as exact
  decimal pairs `(m, e)` denoting `m / 10 ^ e` (JSON number literals are decimal;
  Python's binary floating point rounding is not modelled — all arithmetic the
  code performs on these fields (`* 100`, `/ 1000`) is exact in this decimal
  representation).
- The ticker store `self.current_data` is modelled as a write log: an assignment
  `current_data[symbol] = data` conses the pair onto the log and `dict.get`
  returns the most recent write for the key.  Lookups in the code are always by
  a resolved string symbol, so the lookup key is a `String`; a stored non-string
  key (possible only for a venue frame whose `symbol` field is a truthy
  non-string JSON value) can never be equal to a string lookup key in Python,
  which the `keyMatches` comparison reflects.
- Python `str.upper` is modelled per-character (ASCII); the symbols and inputs
  relevant to the claims are ASCII.
- `float(...)` parsing is modelled by `parseFloat?` over the regular grammar
  sign/digits/point/exponent (Python additionally accepts "inf", "nan" and
  underscore separators, which no venue field uses and no claim exercises).
- Exceptions are modelled with `Except`/`Option`; the silent `except: pass` in
  the message handler keeps all writes made before the exception, exactly as the
  mutation of the shared dict does in the source.
-/

namespace CryptoParser

/-- A JSON value as delivered by the venue and stored by the collector.
Numbers are exact decimals: `num m e` denotes `m / 10 ^ e`. -/
inductive Json where
  | null : Json
  | bool : Bool → Json
  | num : ℤ → ℕ → Json
  | str : String → Json
  | arr : List Json → Json
  | obj : List (String × Json) → Json

/-- Python truthiness of a JSON value (`if symbol:`, `if data.get('ts')`). -/
def Json.truthy : Json → Bool
  | .null => false
  | .bool b => b
  | .num m _ => m != 0
  | .str s => s != ""
  | .arr xs => !xs.isEmpty
  | .obj kvs => !kvs.isEmpty

/-- Whether a JSON value equals the Python string `'N/A'`
(the comparison `result['price_change_24h'] != 'N/A'`). -/
def Json.isNA : Json → Bool
  | .str s => s == "N/A"
  | _ => false

/-- A JSON object (Python dict) as a key/value list; `lookup` is `dict.get`. -/
abbrev JObj := List (String × Json)

/-- The ticker store as a write log (newest first). -/
abbrev Store := List (Json × JObj)

/-- Python equality between a stored dict key and a string lookup key:
only a string key can equal a string. -/
def keyMatches : Json → String → Bool
  | .str t, s => t == s
  | _, _ => false

/-- `self.current_data[symbol] = ticker_data` (line 84/90). -/
def storeWrite (store : Store) (k : Json) (v : JObj) : Store := (k, v) :: store

/-- `self.current_data.get(correct_symbol)` (line 203): latest write wins. -/
def storeRead (store : Store) (s : String) : Option JObj :=
  (store.find? (fun p => keyMatches p.1 s)).map (fun p => p.2)

/-- The mutable collector state of `BybitDataCollector.__init__`
(the request-audit table, which no claim touches, is omitted). -/
structure CollectorState where
  current_data : Store
  subscribed_tickers : List String
  available_tickers : List Json
  total_batches : ℕ
  completed_batches : ℕ
  ws_connections : List ℕ

/-- The freshly constructed collector. -/
def initState : CollectorState := ⟨[], [], [], 0, 0, []⟩

/-- Insertion into the Python set `subscribed_tickers` (membership-deduplicating;
the model fixes insertion order, Python set iteration order is unspecified). -/
def setInsert (l : List String) (t : String) : List String :=
  if l.contains t then l else l ++ [t]

/-- `self.subscribed_tickers.update(batch)` (line 114). -/
def setUpdate (l : List String) (batch : List String) : List String :=
  batch.foldl setInsert l

/-- The `on_open` callback (lines 106-120): sends the subscribe frame, adds the
batch to `subscribed_tickers` and increments `completed_batches`. -/
def on_open (st : CollectorState) (batch : List String) : CollectorState :=
  { st with
    subscribed_tickers := setUpdate st.subscribed_tickers batch,
    completed_batches := st.completed_batches + 1 }

/-- `symbol = ticker_data.get('symbol'); if symbol:` (lines 81-82). -/
def tickerSymbol (tkvs : JObj) : Option Json :=
  match tkvs.lookup "symbol" with
  | some v => if v.truthy then some v else none
  | none => none

/-- Store one ticker object under its own `symbol` field (lines 81-84). -/
def writeTicker (st : CollectorState) (tkvs : JObj) : CollectorState :=
  match tickerSymbol tkvs with
  | some sym => { st with current_data := storeWrite st.current_data sym tkvs }
  | none => st

/-- The `for item in ticker_data` loop (lines 86-90).  A non-dict item raises
`AttributeError` on `.get`, which the surrounding `except` swallows: the loop
stops but the writes already made are kept. -/
def processItems (st : CollectorState) : List Json → CollectorState
  | [] => st
  | Json.obj tkvs :: rest => processItems (writeTicker st tkvs) rest
  | _ :: _ => st

/-- Dispatch on `isinstance(ticker_data, dict)` / `isinstance(ticker_data, list)`
(lines 80-90); any other payload type is ignored without error. -/
def handleData (st : CollectorState) : Json → CollectorState
  | Json.obj tkvs => writeTicker st tkvs
  | Json.arr items => processItems st items
  | _ => st

/-- Substring test on char lists (Python `'tickers' in topic` for a string topic). -/
def containsSub : List Char → List Char → Bool
  | [], pat => pat.isEmpty
  | c :: rest, pat => (c :: rest).take pat.length == pat || containsSub rest pat

/-- `'tickers' in data['topic']`: substring test for a string, membership for a
list, key membership for a dict; any other type raises `TypeError`, which the
handler's `except` swallows leaving the state unchanged (modelled as `false`,
which yields the same resulting state). -/
def topicHasTickers : Json → Bool
  | Json.str s => containsSub s.data "tickers".data
  | Json.arr xs => xs.any (fun j => match j with | Json.str t => t == "tickers" | _ => false)
  | Json.obj kvs => kvs.any (fun p => p.1 == "tickers")
  | _ => false

/-- `ticker_data = data['data']` (line 79): a missing key raises `KeyError`,
swallowed with the state unchanged. -/
def dataStage (st : CollectorState) (kvs : JObj) : CollectorState :=
  match kvs.lookup "data" with
  | some dv => handleData st dv
  | none => st

/-- `if 'topic' in data and 'tickers' in data['topic']:` (line 78). -/
def topicStage (st : CollectorState) (kvs : JObj) : CollectorState :=
  match kvs.lookup "topic" with
  | some t => if topicHasTickers t then dataStage st kvs else st
  | none => st

/-- The `on_message` callback (lines 69-94).  `none` stands for a frame on which
`json.loads` raised.  A non-dict parsed frame always ends in either a falsy `in`
test or a swallowed `TypeError`, leaving the state unchanged. -/
def on_message (st : CollectorState) (msg : Option Json) : CollectorState :=
  match msg with
  | some (Json.obj kvs) =>
    match kvs.lookup "success" with
    | some v => if v.truthy then st else topicStage st kvs
    | none => topicStage st kvs
  | _ => st

/-- `on_close` (lines 100-104): remove the connection from the list. -/
def on_close (st : CollectorState) (wsId : ℕ) : CollectorState :=
  { st with ws_connections := st.ws_connections.erase wsId }

/-- `self.ws_connections.append(ws)` in `start_websocket_for_batch` (line 135). -/
def registerConn (st : CollectorState) (wsId : ℕ) : CollectorState :=
  { st with ws_connections := st.ws_connections ++ [wsId] }

/-- The externally triggered events of the collector. -/
inductive Event where
  | connOpen (batch : List String) : Event
  | msgRecv (frame : Option Json) : Event
  | connClose (wsId : ℕ) : Event
  | connStart (wsId : ℕ) : Event

/-- One event transition of the collector. -/
def step (st : CollectorState) : Event → CollectorState
  | Event.connOpen batch => on_open st batch
  | Event.msgRecv m => on_message st m
  | Event.connClose i => on_close st i
  | Event.connStart i => registerConn st i

/-- A run of the collector over a sequence of events. -/
def run (st : CollectorState) (evs : List Event) : CollectorState := evs.foldl step st

/-- `user_input.upper().replace(" ", "")` (line 161): uppercase, drop spaces. -/
def pyUpperNoSpaces (s : String) : String :=
  String.mk ((s.data.map Char.toUpper).filter (fun c => c != ' '))

/-- `ticker.replace('USDT', '')` (line 173): remove every occurrence, leftmost
first, non-overlapping. -/
def stripUSDTAll : List Char → List Char
  | 'U' :: 'S' :: 'D' :: 'T' :: cs => stripUSDTAll cs
  | c :: cs => c :: stripUSDTAll cs
  | [] => []

/-- String form of `ticker.replace('USDT', '')`. -/
def replaceUSDT (t : String) : String := String.mk (stripUSDTAll t.data)

/-- `user_input.endswith('USDT')` (line 168). -/
def endsWithUSDT (s : String) : Bool :=
  s.data.drop (s.data.length - 4) == "USDT".data

/-- The `for ticker in self.subscribed_tickers` scan with early return
(lines 172-174). -/
def scanTickers (u : String) : List String → Option String
  | [] => none
  | t :: rest => if u == replaceUSDT t then some t else scanTickers u rest

/-- `find_ticker` (lines 159-176). -/
def find_ticker (subscribed : List String) (user_input : String) : String :=
  let u := pyUpperNoSpaces user_input
  if subscribed.contains u then u
  else if !endsWithUSDT u && subscribed.contains (u ++ "USDT") then u ++ "USDT"
  else
    match scanTickers u subscribed with
    | some t => t
    | none => u

/-- An exact decimal number: `(m, e)` denotes `m / 10 ^ e`. -/
abbrev Dec := ℤ × ℕ

/-- Numeric value of a digit string. -/
def digitsVal (cs : List Char) : ℕ := cs.foldl (fun n c => 10 * n + (c.toNat - 48)) 0

/-- Non-empty and all decimal digits. -/
def isDigits (cs : List Char) : Bool := !cs.isEmpty && cs.all Char.isDigit

/-- Split at the first character satisfying `p` (separator removed). -/
def splitFirst (p : Char → Bool) : List Char → List Char × Option (List Char)
  | [] => ([], none)
  | c :: cs =>
    if p c then ([], some cs)
    else
      let r := splitFirst p cs
      (c :: r.1, r.2)

/-- Parse `digits`, `digits.digits`, `.digits` or `digits.` as an exact decimal. -/
def parseMantissa? (cs : List Char) : Option Dec :=
  match splitFirst (fun c => c == '.') cs with
  | (a, none) => if isDigits a then some ((digitsVal a : ℤ), 0) else none
  | (a, some b) =>
    if a.all Char.isDigit && b.all Char.isDigit && !(a.isEmpty && b.isEmpty) then
      some (((digitsVal a) * 10 ^ b.length + digitsVal b : ℤ), b.length)
    else none

/-- Parse a signed exponent. -/
def parseExpVal? (cs : List Char) : Option ℤ :=
  match cs with
  | '+' :: r => if isDigits r then some (digitsVal r) else none
  | '-' :: r => if isDigits r then some (-(digitsVal r : ℤ)) else none
  | _ => if isDigits cs then some (digitsVal cs) else none

/-- Scale an exact decimal by `10 ^ e`. -/
def applyExp (d : Dec) (e : ℤ) : Dec :=
  match e with
  | Int.ofNat n => (d.1 * 10 ^ n, d.2)
  | Int.negSucc n => (d.1, d.2 + (n + 1))

/-- Negate an exact decimal. -/
def decNeg (d : Dec) : Dec := (-d.1, d.2)

/-- Python `str.strip` whitespace characters. -/
def isPySpace (c : Char) : Bool :=
  c == ' ' || c == '\t' || c == '\n' || c == '\r' || c == '\x0b' || c == '\x0c'

/-- Strip surrounding whitespace. -/
def pyTrim (cs : List Char) : List Char :=
  ((cs.dropWhile isPySpace).reverse.dropWhile isPySpace).reverse

/-- Python `float(s)` on the sign/digits/point/exponent grammar; `none` means
`float` raises `ValueError`. -/
def parseFloat? (s : String) : Option Dec :=
  let cs := pyTrim s.data
  let sr : Bool × List Char :=
    match cs with
    | '+' :: r => (false, r)
    | '-' :: r => (true, r)
    | _ => (false, cs)
  match splitFirst (fun c => c == 'e' || c == 'E') sr.2 with
  | (m, none) => (parseMantissa? m).map (fun d => if sr.1 then decNeg d else d)
  | (m, some ecs) =>
    match parseMantissa? m, parseExpVal? ecs with
    | some d, some e => some (applyExp (if sr.1 then decNeg d else d) e)
    | _, _ => none

/-- Python `float(x)` on a JSON value: numbers and booleans convert, strings are
parsed, everything else raises `TypeError`. -/
def toFloat? : Json → Option Dec
  | .num m e => some (m, e)
  | .str s => parseFloat? s
  | .bool b => some (if b then (1, 0) else (0, 0))
  | _ => none

/-- The formatted-timestamp field of a query result: either the literal `'N/A'`
or `time.strftime` applied to `localtime(v)` for the epoch-seconds value `v`
(the rendered text of `strftime`/`localtime` is timezone-dependent and kept
abstract; the field records the exact value passed to it). -/
inductive TsField where
  | na : TsField
  | formatted (epochSeconds : Dec) : TsField
  deriving DecidableEq

/-- The Python exceptions `get_ticker_data` can raise. -/
inductive PyErr where
  | valueError : PyErr
  | typeError : PyErr
  deriving DecidableEq

/-- The successful result dict of `get_ticker_data` (lines 207-221).
`price_change_percent_24h` is `none` when the key is not added; when present it
records the exact value `float(price_change_24h) * 100` that is formatted. -/
structure TickerResult where
  symbol : Json
  last_price : Json
  price_change_24h : Json
  high_price_24h : Json
  low_price_24h : Json
  volume_24h : Json
  timestamp : TsField
  price_change_percent_24h : Option Dec

/-- The failure result dict of `get_ticker_data` (lines 223-228). -/
structure QueryFail where
  attempted : String
  correct_symbol : String
  tip_subscribed_count : ℕ
  progress_completed : ℕ
  progress_total : ℕ
  deriving DecidableEq

/-- A query result: the success dict or the structured failure dict. -/
inductive QueryResult where
  | ok (r : TickerResult) : QueryResult
  | err (e : QueryFail) : QueryResult

/-- The timestamp entry of the result dict (line 214):
`time.strftime(..., time.localtime(data.get('ts', 0)/1000)) if data.get('ts') else 'N/A'`.
A truthy non-numeric `ts` makes `/1000` raise `TypeError`. -/
def tsField? (d : JObj) : Except PyErr TsField :=
  match d.lookup "ts" with
  | none => Except.ok TsField.na
  | some v =>
    if v.truthy then
      match v with
      | Json.num m e => Except.ok (TsField.formatted (m, e + 3))
      | Json.bool _ => Except.ok (TsField.formatted (1, 3))
      | _ => Except.error PyErr.typeError
    else Except.ok TsField.na

/-- Lines 218-219: the derived percent key is added only when the raw field is
not the string `'N/A'`; `float` raises on an unparsable string (`ValueError`) or
a non-convertible type (`TypeError`). -/
def pctField? (raw : Json) : Except PyErr (Option Dec) :=
  if raw.isNA then Except.ok none
  else
    match toFloat? raw with
    | some d => Except.ok (some (d.1 * 100, d.2))
    | none =>
      Except.error (match raw with | Json.str _ => PyErr.valueError | _ => PyErr.typeError)

/-- `get_ticker_data` (lines 193-228), with the request-audit side effect
omitted (it does not influence the result).  An `Except.error` models the call
raising an exception to its caller. -/
def get_ticker_data (st : CollectorState) (symbol : String) : Except PyErr QueryResult :=
  match storeRead st.current_data (find_ticker st.subscribed_tickers symbol) with
  | none =>
    Except.ok (QueryResult.err
      { attempted := symbol
        correct_symbol := find_ticker st.subscribed_tickers symbol
        tip_subscribed_count := st.subscribed_tickers.length
        progress_completed := st.completed_batches
        progress_total := st.total_batches })
  | some d =>
    match tsField? d with
    | Except.error e => Except.error e
    | Except.ok ts =>
      match pctField? ((d.lookup "price24hPcnt").getD (Json.str "N/A")) with
      | Except.error e => Except.error e
      | Except.ok pct =>
        Except.ok (QueryResult.ok
          { symbol := (d.lookup "symbol").getD (Json.str "N/A")
            last_price := (d.lookup "lastPrice").getD (Json.str "N/A")
            price_change_24h := (d.lookup "price24hPcnt").getD (Json.str "N/A")
            high_price_24h := (d.lookup "highPrice24h").getD (Json.str "N/A")
            low_price_24h := (d.lookup "lowPrice24h").getD (Json.str "N/A")
            volume_24h := (d.lookup "volume24h").getD (Json.str "N/A")
            timestamp := ts
            price_change_percent_24h := pct })

/-- `create_batches`'s slicing loop, fuelled for structural recursion; the fuel
is instantiated with the list length, which bounds the iteration count of
`range(0, len(tickers), batch_size)` for any positive step. -/
def chunkFuel {α : Type} (k : ℕ) : ℕ → List α → List (List α)
  | 0, _ => []
  | _, [] => []
  | fuel + 1, c :: cs => (c :: cs).take k :: chunkFuel k fuel ((c :: cs).drop k)

/-- `create_batches` (lines 59-64): contiguous slices `tickers[i:i+batch_size]`.
(`range` with step 0 raises `ValueError` in Python; every claim assumes a
positive batch size.) -/
def create_batches {α : Type} (tickers : List α) (batch_size : ℕ) : List (List α) :=
  if batch_size = 0 then [] else chunkFuel batch_size tickers.length tickers

/-- One HTTP response: status code and parsed body (`none` when
`response.json()` raises). -/
structure HttpResponse where
  status_code : ℕ
  body : Option Json

/-- The comprehension `[item['symbol'] for item in ...]` (line 44): a non-dict
item or a missing `'symbol'` key raises, caught by the surrounding `except`. -/
def itemsSymbols? : List Json → Option (List Json)
  | [] => some []
  | Json.obj ikvs :: rest =>
    match ikvs.lookup "symbol" with
    | some v => (itemsSymbols? rest).map (fun l => v :: l)
    | none => none
  | _ :: _ => none

/-- `data['result']['list']` plus the symbol comprehension (lines 43-44):
`none` models any raised `KeyError`/`TypeError` (malformed payload). -/
def extractSymbols? (body : Option Json) : Option (List Json) :=
  match body with
  | some (Json.obj kvs) =>
    match kvs.lookup "result" with
    | some (Json.obj rkvs) =>
      match rkvs.lookup "list" with
      | some (Json.arr items) => itemsSymbols? items
      | _ => none
    | _ => none
  | _ => none

/-- `fetch_spot_tickers` (lines 35-57): `none` for the request itself raising
(network fault).  Every failure path returns the empty list. -/
def fetch_spot_tickers (resp : Option HttpResponse) : List Json :=
  match resp with
  | none => []
  | some r =>
    if r.status_code = 200 then
      match extractSymbols? r.body with
      | some ts => ts
      | none => []
    else []

/-- What `start_collection` (lines 242-258) sets up before the wait loop. -/
structure StartResult where
  tickers : List Json
  batches : List (List Json)
  total_batches : ℕ
  websockets_started : Bool

/-- `start_all_websockets` (lines 145-157): batches of 10, `total_batches`. -/
def start_all_websockets (tickers : List Json) : List (List Json) × ℕ :=
  let batches := create_batches tickers 10
  (batches, batches.length)

/-- `start_collection` (lines 242-258): on `if not tickers: return` nothing is
created or started. -/
def start_collection (resp : Option HttpResponse) : StartResult :=
  let tickers := fetch_spot_tickers resp
  if tickers.isEmpty then
    { tickers := tickers, batches := [], total_batches := 0, websockets_started := false }
  else
    let bt := start_all_websockets tickers
    { tickers := tickers, batches := bt.1, total_batches := bt.2, websockets_started := true }

/-- The `ts` field, when present and truthy, is numeric — so `/1000` cannot
raise `TypeError`. -/
def tsOK (d : JObj) : Bool :=
  match d.lookup "ts" with
  | none => true
  | some v =>
    !v.truthy || (match v with | Json.num _ _ => true | Json.bool _ => true | _ => false)

/-- The raw percent field is absent, the literal `'N/A'`, or `float`-convertible
— so line 219 cannot raise. -/
def pctOK (d : JObj) : Bool :=
  ((d.lookup "price24hPcnt").getD (Json.str "N/A")).isNA ||
    (toFloat? ((d.lookup "price24hPcnt").getD (Json.str "N/A"))).isSome

/-- The snapshot the query would read (if any) cannot make the formatting raise. -/
def snapshotBenign (st : CollectorState) (symbol : String) : Bool :=
  match storeRead st.current_data (find_ticker st.subscribed_tickers symbol) with
  | some d => tsOK d && pctOK d
  | none => true

/-- Whether the call raised an exception. -/
def queryThrew : Except PyErr QueryResult → Bool
  | Except.error _ => true
  | Except.ok _ => false

/-- The structured failure payload, when the call returned one. -/
def failurePayload : Except PyErr QueryResult → Option QueryFail
  | Except.ok (QueryResult.err e) => some e
  | _ => none

/-- The timestamp field of a successful result. -/
def resultTs : Except PyErr QueryResult → Option TsField
  | Except.ok (QueryResult.ok r) => some r.timestamp
  | _ => none

/-- The derived percent field of a successful result. -/
def resultPct : Except PyErr QueryResult → Option (Option Dec)
  | Except.ok (QueryResult.ok r) => some r.price_change_percent_24h
  | _ => none

/-- Amended derived-timestamp semantics: formatted from `ts/1000` exactly when
`ts` is present, numeric and truthy (nonzero); `'N/A'` when absent or falsy. -/
def tsDerived (d : JObj) : TsField :=
  match d.lookup "ts" with
  | some (Json.num m e) => if m != 0 then TsField.formatted (m, e + 3) else TsField.na
  | some (Json.bool b) => if b then TsField.formatted (1, 3) else TsField.na
  | _ => TsField.na

/-- Amended derived-percent semantics: present (as `float(raw) * 100`) exactly
when the raw field is present and not the literal `'N/A'`; omitted otherwise. -/
def pctDerived (d : JObj) : Option Dec :=
  match d.lookup "price24hPcnt" with
  | none => none
  | some raw => if raw.isNA then none else (toFloat? raw).map (fun q => (q.1 * 100, q.2))

/-- Discovery failure: network fault, non-200 status, or malformed payload. -/
def discoveryFailed : Option HttpResponse → Bool
  | none => true
  | some r => !(r.status_code == 200) || (extractSymbols? r.body).isNone

/-- A stored snapshot whose percent field is not a parsable float. -/
def c2entry : JObj := [("symbol", Json.str "BTCUSDT"), ("price24hPcnt", Json.str "abc")]

/-- Collector state holding `c2entry`. -/
def c2state : CollectorState := ⟨[(Json.str "BTCUSDT", c2entry)], [], [], 0, 0, []⟩

/-- A benign stored snapshot. -/
def c2goodEntry : JObj :=
  [("symbol", Json.str "BTCUSDT"), ("lastPrice", Json.str "50000"),
   ("price24hPcnt", Json.str "0.05"), ("ts", Json.num 1700000000123 0)]

/-- Collector state for the C2 witness: one benign snapshot, one subscription. -/
def c2goodState : CollectorState :=
  ⟨[(Json.str "BTCUSDT", c2goodEntry)], ["BTCUSDT"], [], 5, 3, []⟩

/-- A snapshot whose `ts` field is present but zero (falsy). -/
def c6entry : JObj := [("symbol", Json.str "BTCUSDT"), ("ts", Json.num 0 0)]

/-- Collector state holding `c6entry`. -/
def c6state : CollectorState := ⟨[(Json.str "BTCUSDT", c6entry)], [], [], 0, 0, []⟩

/-- A benign stored snapshot for the C6 witness. -/
def c6goodEntry : JObj :=
  [("symbol", Json.str "ETHUSDT"), ("price24hPcnt", Json.str "-0.012"),
   ("ts", Json.num 1700000000500 0)]

/-- Collector state holding `c6goodEntry`. -/
def c6goodState : CollectorState := ⟨[(Json.str "ETHUSDT", c6goodEntry)], ["ETHUSDT"], [], 1, 1, []⟩

/-- A subscribe acknowledgment frame: a JSON object whose `success` field is
truthy (`if 'success' in data and data['success']: return`, lines 74-75). -/
def isAckFrame : Option Json → Bool
  | some (Json.obj kvs) =>
    match kvs.lookup "success" with
    | some v => v.truthy
    | none => false
  | _ => false

/-- A concrete acknowledgment frame as Bybit sends it. -/
def ackFrame : Json :=
  Json.obj [("success", Json.bool true), ("op", Json.str "subscribe")]

/-- The spec's notion of a well-shaped data payload: a single ticker object or a
list of ticker objects. -/
def isTickerPayload : Json → Bool
  | Json.obj _ => true
  | Json.arr xs => xs.all (fun j => match j with | Json.obj _ => true | _ => false)
  | _ => false

/-- A frame that passes every gate of the handler's write path: a parsed JSON
object, no truthy `success` field, a `topic` containing `tickers`, and a `data`
key holding an object or a list. -/
def goodFrame : Option Json → Bool
  | some (Json.obj kvs) =>
    (match kvs.lookup "success" with | some v => !v.truthy | none => true) &&
    (match kvs.lookup "topic" with | some t => topicHasTickers t | none => false) &&
    (match kvs.lookup "data" with
     | some (Json.obj _) => true
     | some (Json.arr _) => true
     | some _ => false
     | none => false)
  | _ => false

/-- A frame whose payload is a list holding one valid ticker object followed by
a bare number: not a list of ticker objects. -/
def c7frame : Json :=
  Json.obj [("topic", Json.str "tickers.BTCUSDT"),
            ("data", Json.arr [Json.obj [("symbol", Json.str "BTCUSDT"), ("lastPrice", Json.str "1")],
                               Json.num 5 0])]

/-- Removing only a trailing `USDT` — step 3 of claim C4 as worded. -/
def stripSuffixUSDT (t : String) : String :=
  if endsWithUSDT t then String.mk (t.data.take (t.data.length - 4)) else t

/-- The resolver exactly as claim C4 words it: step 3 compares the input with
the subscribed symbol's USDT-suffix-stripped form. -/
def resolveSpec (subscribed : List String) (input : String) : String :=
  let u := pyUpperNoSpaces input
  if subscribed.contains u then u
  else if !endsWithUSDT u && subscribed.contains (u ++ "USDT") then u ++ "USDT"
  else (subscribed.find? (fun t => u == stripSuffixUSDT t)).getD u

/-- The resolver as amended: step 3 compares the input with the subscribed
symbol after removing every occurrence of `USDT` (Python `str.replace`), not
only a suffix; normalization uppercases and removes all space characters. -/
def resolveAmended (subscribed : List String) (input : String) : String :=
  let u := pyUpperNoSpaces input
  if subscribed.contains u then u
  else if !endsWithUSDT u && subscribed.contains (u ++ "USDT") then u ++ "USDT"
  else (subscribed.find? (fun t => u == replaceUSDT t)).getD u

/-- The C10 invariant: every entry of the store log carries a `symbol` field
equal (and truthy) to the key it is stored under. -/
def StoreConsistent (store : Store) : Prop :=
  ∀ p ∈ store, p.2.lookup "symbol" = some p.1 ∧ p.1.truthy = true

/-- The write keys a single ticker object would be stored under. -/
def tickerSyms (j : Json) : List Json :=
  match j with
  | Json.obj tkvs => (match tickerSymbol tkvs with | some v => [v] | none => [])
  | _ => []

/-- The write keys a data payload could produce. -/
def dataSyms : Json → List Json
  | Json.obj tkvs => tickerSyms (Json.obj tkvs)
  | Json.arr items => (items.map tickerSyms).flatten
  | _ => []

/-- All symbols a frame could write under (overapproximating the topic gates). -/
def frameSymbols : Option Json → List Json
  | some (Json.obj kvs) =>
    (match kvs.lookup "data" with
     | some dv => dataSyms dv
     | none => [])
  | _ => []

/-- Venue well-behavedness of one event: a data frame only carries symbols that
are already subscribed (as strings) at the moment it is delivered. -/
def eventOK (st : CollectorState) : Event → Bool
  | Event.msgRecv m =>
    (frameSymbols m).all (fun j => st.subscribed_tickers.any (fun s => keyMatches j s))
  | _ => true

/-- A trace every event of which is venue-well-behaved. -/
inductive GoodTrace : CollectorState → List Event → Prop where
  | nil (st : CollectorState) : GoodTrace st []
  | cons {st : CollectorState} {e : Event} {evs : List Event} :
      eventOK st e = true → GoodTrace (step st e) evs → GoodTrace st (e :: evs)

/-- Every store key is one of the subscribed symbols. -/
def storeKeysSubscribed (st : CollectorState) : Bool :=
  st.current_data.all (fun p => st.subscribed_tickers.any (fun s => keyMatches p.1 s))

/-- A frame carrying a ticker for a symbol nothing subscribed to. -/
def c5frame : Json :=
  Json.obj [("topic", Json.str "tickers.ZZZ"), ("data", Json.obj [("symbol", Json.str "ZZZ")])]

/-- A well-behaved trace: subscribe BTCUSDT, then receive one BTCUSDT ticker. -/
def c5trace : List Event :=
  [Event.connOpen ["BTCUSDT"],
   Event.msgRecv (some (Json.obj [("topic", Json.str "tickers.BTCUSDT"),
     ("data", Json.obj [("symbol", Json.str "BTCUSDT"), ("lastPrice", Json.str "50000")])]))]

/-- Ticker object for the C10 witness. -/
def c10ticker : JObj := [("symbol", Json.str "BTCUSDT"), ("lastPrice", Json.str "50000")]

/-- Frame delivering `c10ticker`. -/
def c10frame : Json :=
  Json.obj [("topic", Json.str "tickers.BTCUSDT"), ("data", Json.obj c10ticker)]

end CryptoParser

namespace CryptoParser

/- Helper lemmas: the message handler only ever mutates `current_data`. -/

theorem writeTicker_fields (st : CollectorState) (tkvs : JObj) :
    (writeTicker st tkvs).subscribed_tickers = st.subscribed_tickers ∧
    (writeTicker st tkvs).completed_batches = st.completed_batches ∧
    (writeTicker st tkvs).total_batches = st.total_batches := by
  cases h : tickerSymbol tkvs <;> simp [writeTicker, h]

theorem processItems_fields (items : List Json) : ∀ st : CollectorState,
    (processItems st items).subscribed_tickers = st.subscribed_tickers ∧
    (processItems st items).completed_batches = st.completed_batches ∧
    (processItems st items).total_batches = st.total_batches := by
  induction items with
  | nil => intro st; simp [processItems]
  | cons j rest ih =>
    intro st
    cases j with
    | obj tkvs =>
      have h1 := writeTicker_fields st tkvs
      have h2 := ih (writeTicker st tkvs)
      simp only [processItems]
      exact ⟨h2.1.trans h1.1, h2.2.1.trans h1.2.1, h2.2.2.trans h1.2.2⟩
    | null => simp [processItems]
    | bool b => simp [processItems]
    | num m e => simp [processItems]
    | str s => simp [processItems]
    | arr xs => simp [processItems]

theorem handleData_fields (st : CollectorState) (dv : Json) :
    (handleData st dv).subscribed_tickers = st.subscribed_tickers ∧
    (handleData st dv).completed_batches = st.completed_batches ∧
    (handleData st dv).total_batches = st.total_batches := by
  cases dv with
  | obj tkvs => simpa [handleData] using writeTicker_fields st tkvs
  | arr items => simpa [handleData] using processItems_fields items st
  | null => simp [handleData]
  | bool b => simp [handleData]
  | num m e => simp [handleData]
  | str s => simp [handleData]

theorem dataStage_fields (st : CollectorState) (kvs : JObj) :
    (dataStage st kvs).subscribed_tickers = st.subscribed_tickers ∧
    (dataStage st kvs).completed_batches = st.completed_batches ∧
    (dataStage st kvs).total_batches = st.total_batches := by
  cases h : kvs.lookup "data" with
  | none => simp [dataStage, h]
  | some dv => simpa [dataStage, h] using handleData_fields st dv

theorem topicStage_fields (st : CollectorState) (kvs : JObj) :
    (topicStage st kvs).subscribed_tickers = st.subscribed_tickers ∧
    (topicStage st kvs).completed_batches = st.completed_batches ∧
    (topicStage st kvs).total_batches = st.total_batches := by
  cases h : kvs.lookup "topic" with
  | none => simp [topicStage, h]
  | some t =>
    by_cases ht : topicHasTickers t
    · simpa [topicStage, h, ht] using dataStage_fields st kvs
    · simp [topicStage, h, ht]

theorem on_message_fields (st : CollectorState) (m : Option Json) :
    (on_message st m).subscribed_tickers = st.subscribed_tickers ∧
    (on_message st m).completed_batches = st.completed_batches ∧
    (on_message st m).total_batches = st.total_batches := by
  cases m with
  | none => simp [on_message]
  | some j =>
    cases j with
    | obj kvs =>
      cases hs : kvs.lookup "success" with
      | none => simpa [on_message, hs] using topicStage_fields st kvs
      | some v =>
        by_cases hv : v.truthy
        · simp [on_message, hs, hv]
        · simpa [on_message, hs, hv] using topicStage_fields st kvs
    | null => simp [on_message]
    | bool b => simp [on_message]
    | num me e => simp [on_message]
    | str s => simp [on_message]
    | arr xs => simp [on_message]

/-- Claim C1 (refutation): the completed-batch counter is already 1 after the
transport-level `on_open` callback alone, before any acknowledgment frame has
been delivered, and delivering the venue's subscribe acknowledgment — once or
twice — leaves the counter untouched.  The increment therefore happens on
transport connect, not on the acknowledgment transition claimed. -/
theorem c1_counterexample :
    (on_open initState ["BTCUSDT"]).completed_batches = 1 ∧
    (on_message (on_open initState ["BTCUSDT"]) (some ackFrame)).completed_batches = 1 ∧
    (on_message (on_message (on_open initState ["BTCUSDT"]) (some ackFrame))
      (some ackFrame)).completed_batches = 1 := by
  refine ⟨rfl, rfl, rfl⟩

/-- Claim C1 (amended): `completed_batches` is incremented exactly once per
`on_open` callback (transport connect plus subscribe-request send), and a
subscribe acknowledgment frame never modifies the collector state at all, so
duplicate acknowledgments increment the counter zero times. -/
theorem c1_theorem (st : CollectorState) (batch : List String) (m : Option Json)
    (hm : isAckFrame m = true) :
    (on_open st batch).completed_batches = st.completed_batches + 1 ∧
    on_message st m = st := by
  refine ⟨rfl, ?_⟩
  cases m with
  | none => simp [isAckFrame] at hm
  | some j =>
    cases j with
    | obj kvs =>
      simp only [isAckFrame] at hm
      cases hs : kvs.lookup "success" with
      | none => simp [hs] at hm
      | some v =>
        simp [hs] at hm
        simp [on_message, hs, hm]
    | null => simp [isAckFrame] at hm
    | bool b => simp [isAckFrame] at hm
    | num me e => simp [isAckFrame] at hm
    | str s => simp [isAckFrame] at hm
    | arr xs => simp [isAckFrame] at hm

/-- Witness for C1's amended theorem at a concrete batch and acknowledgment. -/
theorem c1_witness :
    isAckFrame (some ackFrame) = true ∧
    ((on_open initState ["BTCUSDT"]).completed_batches = initState.completed_batches + 1 ∧
      on_message initState (some ackFrame) = initState) :=
  ⟨rfl, c1_theorem initState ["BTCUSDT"] (some ackFrame) rfl⟩

/-- Claim C9: writing a snapshot for a symbol into the store and immediately
reading the same symbol back returns exactly the just-written snapshot. -/
theorem c9_theorem (store : Store) (s : String) (v : JObj) :
    storeRead (storeWrite store (Json.str s) v) s = some v := by
  simp [storeRead, storeWrite, List.find?, keyMatches]

/-- Claim C7 (refutation): a frame whose payload is a list containing one valid
ticker object followed by a bare number is not "a list of ticker objects", yet
the handler does not leave the store unchanged: the valid prefix item is
written before the non-dict item raises the swallowed `AttributeError`. -/
theorem c7_counterexample :
    isTickerPayload (Json.arr [Json.obj [("symbol", Json.str "BTCUSDT"), ("lastPrice", Json.str "1")],
                               Json.num 5 0]) = false ∧
    (on_message initState (some c7frame)).current_data
      = [(Json.str "BTCUSDT", [("symbol", Json.str "BTCUSDT"), ("lastPrice", Json.str "1")])] :=
  ⟨rfl, rfl⟩

theorem dataStage_unchanged (st : CollectorState) (kvs : JObj)
    (hm : (match kvs.lookup "data" with
           | some (Json.obj _) => true
           | some (Json.arr _) => true
           | some _ => false
           | none => false) = false) :
    dataStage st kvs = st := by
  cases hd : kvs.lookup "data" with
  | none => simp [dataStage, hd]
  | some dv =>
    rw [hd] at hm
    cases dv with
    | obj tkvs => cases hm
    | arr items => cases hm
    | null => simp [dataStage, hd, handleData]
    | bool b => simp [dataStage, hd, handleData]
    | num me e => simp [dataStage, hd, handleData]
    | str s => simp [dataStage, hd, handleData]

theorem topicStage_unchanged (st : CollectorState) (kvs : JObj)
    (hm : ((match kvs.lookup "topic" with | some t => topicHasTickers t | none => false) &&
           (match kvs.lookup "data" with
            | some (Json.obj _) => true
            | some (Json.arr _) => true
            | some _ => false
            | none => false)) = false) :
    topicStage st kvs = st := by
  cases ht : kvs.lookup "topic" with
  | none => simp [topicStage, ht]
  | some t =>
    by_cases htt : topicHasTickers t
    · simp only [ht, htt, Bool.true_and] at hm
      simp [topicStage, ht, htt, dataStage_unchanged st kvs hm]
    · simp [topicStage, ht, htt]

/-- Claim C7 (amended): a frame that fails any gate of the write path —
unparsable JSON, a non-object frame, a truthy `success` field, a missing
`topic`, a topic without `tickers`, a missing `data` key, or a payload that is
neither an object nor a list — leaves the collector state entirely unchanged
and surfaces no error; and no inbound frame whatsoever (the second frame is
unconstrained) ever modifies the subscription set, the completed-batch counter
or the batch total.  (For a list payload the handler writes the valid ticker
objects preceding the first non-object item, as the refutation shows.) -/
theorem c7_theorem (st : CollectorState) (m m2 : Option Json)
    (hm : goodFrame m = false) :
    on_message st m = st ∧
    (on_message st m2).subscribed_tickers = st.subscribed_tickers ∧
    (on_message st m2).completed_batches = st.completed_batches ∧
    (on_message st m2).total_batches = st.total_batches := by
  refine ⟨?_, on_message_fields st m2⟩
  cases m with
  | none => rfl
  | some j =>
    cases j with
    | obj kvs =>
      simp only [goodFrame] at hm
      cases hs : kvs.lookup "success" with
      | none =>
        simp only [hs, Bool.true_and] at hm
        simpa [on_message, hs] using topicStage_unchanged st kvs hm
      | some v =>
        by_cases hv : v.truthy
        · simp [on_message, hs, hv]
        · rw [Bool.not_eq_true] at hv
          simp only [hs, hv, Bool.not_false, Bool.true_and] at hm
          simpa [on_message, hs, hv] using topicStage_unchanged st kvs hm
    | null => rfl
    | bool b => rfl
    | num me e => rfl
    | str s => rfl
    | arr xs => rfl

/- Helper lemmas for the C10 store-consistency invariant. -/

theorem tickerSymbol_spec {tkvs : JObj} {v : Json} (h : tickerSymbol tkvs = some v) :
    tkvs.lookup "symbol" = some v ∧ v.truthy = true := by
  unfold tickerSymbol at h
  cases hs : tkvs.lookup "symbol" with
  | none => simp [hs] at h
  | some w =>
    simp only [hs] at h
    by_cases hw : w.truthy
    · simp only [hw, if_true] at h
      injection h with h2
      subst h2
      exact ⟨rfl, hw⟩
    · simp [hw] at h

theorem writeTicker_consistent {st : CollectorState} (tkvs : JObj)
    (h : StoreConsistent st.current_data) :
    StoreConsistent (writeTicker st tkvs).current_data := by
  cases hl : tickerSymbol tkvs with
  | none => simpa [writeTicker, hl] using h
  | some v =>
    simp only [writeTicker, hl, storeWrite]
    intro p hp
    rcases List.mem_cons.mp hp with hp | hp
    · subst hp
      exact tickerSymbol_spec hl
    · exact h p hp

theorem processItems_consistent (items : List Json) : ∀ st : CollectorState,
    StoreConsistent st.current_data → StoreConsistent (processItems st items).current_data := by
  induction items with
  | nil => intro st h; simpa [processItems] using h
  | cons j rest ih =>
    intro st h
    cases j with
    | obj tkvs =>
      simpa [processItems] using ih (writeTicker st tkvs) (writeTicker_consistent tkvs h)
    | null => simpa [processItems] using h
    | bool b => simpa [processItems] using h
    | num me e => simpa [processItems] using h
    | str s => simpa [processItems] using h
    | arr xs => simpa [processItems] using h

theorem handleData_consistent {st : CollectorState} (dv : Json)
    (h : StoreConsistent st.current_data) :
    StoreConsistent (handleData st dv).current_data := by
  cases dv with
  | obj tkvs => simpa [handleData] using writeTicker_consistent tkvs h
  | arr items => simpa [handleData] using processItems_consistent items st h
  | null => simpa [handleData] using h
  | bool b => simpa [handleData] using h
  | num me e => simpa [handleData] using h
  | str s => simpa [handleData] using h

theorem topicStage_consistent {st : CollectorState} (kvs : JObj)
    (h : StoreConsistent st.current_data) :
    StoreConsistent (topicStage st kvs).current_data := by
  unfold topicStage
  cases ht : kvs.lookup "topic" with
  | none => simpa using h
  | some t =>
    by_cases htt : topicHasTickers t
    · simp only [htt, if_pos]
      unfold dataStage
      cases hd : kvs.lookup "data" with
      | none => simpa using h
      | some dv => simpa using handleData_consistent dv h
    · simpa [htt] using h

theorem on_message_consistent {st : CollectorState} (m : Option Json)
    (h : StoreConsistent st.current_data) :
    StoreConsistent (on_message st m).current_data := by
  cases m with
  | none => simpa [on_message] using h
  | some j =>
    cases j with
    | obj kvs =>
      cases hs : kvs.lookup "success" with
      | none => simpa [on_message, hs] using topicStage_consistent kvs h
      | some v =>
        by_cases hv : v.truthy
        · simpa [on_message, hs, hv] using h
        · simpa [on_message, hs, hv] using topicStage_consistent kvs h
    | null => simpa [on_message] using h
    | bool b => simpa [on_message] using h
    | num me e => simpa [on_message] using h
    | str s => simpa [on_message] using h
    | arr xs => simpa [on_message] using h

theorem step_consistent (st : CollectorState) (e : Event)
    (h : StoreConsistent st.current_data) :
    StoreConsistent (step st e).current_data := by
  cases e with
  | connOpen batch => simpa [step, on_open] using h
  | msgRecv m => simpa [step] using on_message_consistent m h
  | connClose i => simpa [step, on_close] using h
  | connStart i => simpa [step, registerConn] using h

theorem run_consistent (evs : List Event) : ∀ st : CollectorState,
    StoreConsistent st.current_data → StoreConsistent (run st evs).current_data := by
  induction evs with
  | nil => intro st h; simpa [run] using h
  | cons e rest ih =>
    intro st h
    simpa [run] using ih (step st e) (step_consistent st e h)

/-- Claim C10: in every reachable state, every entry of the ticker store is
self-consistent — the snapshot stored under a key carries a `symbol` field that
is exactly that key (and truthy: the handler skips objects with a missing or
falsy `symbol`). -/
theorem c10_theorem (evs : List Event) (p : Json × JObj)
    (hp : p ∈ (run initState evs).current_data) :
    p.2.lookup "symbol" = some p.1 ∧ p.1.truthy = true :=
  run_consistent evs initState (fun _ hq => nomatch hq) p hp

/-- Witness for C10 on a concrete one-frame trace. -/
theorem c10_witness :
    ((Json.str "BTCUSDT", c10ticker) ∈
      (run initState [Event.msgRecv (some c10frame)]).current_data) ∧
    (c10ticker.lookup "symbol" = some (Json.str "BTCUSDT") ∧
      (Json.str "BTCUSDT").truthy = true) :=
  ⟨List.Mem.head _,
   c10_theorem [Event.msgRecv (some c10frame)] (Json.str "BTCUSDT", c10ticker) (List.Mem.head _)⟩

/- Helper lemmas for C5: where store keys can come from. -/

theorem any_setInsert (l : List String) (t : String) (p : String → Bool)
    (h : l.any p = true) : (setInsert l t).any p = true := by
  unfold setInsert
  split
  · exact h
  · simp [List.any_append, h]

theorem any_setUpdate (batch : List String) : ∀ (l : List String) (p : String → Bool),
    l.any p = true → (setUpdate l batch).any p = true := by
  induction batch with
  | nil => intro l p h; simpa [setUpdate] using h
  | cons t rest ih =>
    intro l p h
    simpa [setUpdate] using ih (setInsert l t) p (any_setInsert l t p h)

theorem writeTicker_keys {st : CollectorState} {tkvs : JObj} {p : Json × JObj}
    (hp : p ∈ (writeTicker st tkvs).current_data) :
    p ∈ st.current_data ∨ p.1 ∈ tickerSyms (Json.obj tkvs) := by
  cases hl : tickerSymbol tkvs with
  | none =>
    simp only [writeTicker, hl] at hp
    exact Or.inl hp
  | some v =>
    simp only [writeTicker, hl, storeWrite] at hp
    rcases List.mem_cons.mp hp with hp | hp
    · subst hp; right; simp [tickerSyms, hl]
    · exact Or.inl hp

theorem processItems_keys (items : List Json) : ∀ (st : CollectorState) (p : Json × JObj),
    p ∈ (processItems st items).current_data →
    p ∈ st.current_data ∨ p.1 ∈ (items.map tickerSyms).flatten := by
  induction items with
  | nil => intro st p hp; exact Or.inl (by simpa [processItems] using hp)
  | cons j rest ih =>
    intro st p hp
    cases j with
    | obj tkvs =>
      have hp2 : p ∈ (processItems (writeTicker st tkvs) rest).current_data := by
        simpa [processItems] using hp
      rcases ih (writeTicker st tkvs) p hp2 with h | h
      · rcases writeTicker_keys h with h2 | h2
        · exact Or.inl h2
        · right; simp only [List.map_cons, List.flatten_cons, List.mem_append]; exact Or.inl h2
      · right; simp only [List.map_cons, List.flatten_cons, List.mem_append]; exact Or.inr h
    | null => exact Or.inl (by simpa [processItems] using hp)
    | bool b => exact Or.inl (by simpa [processItems] using hp)
    | num me e => exact Or.inl (by simpa [processItems] using hp)
    | str s => exact Or.inl (by simpa [processItems] using hp)
    | arr xs => exact Or.inl (by simpa [processItems] using hp)

theorem handleData_keys {st : CollectorState} {dv : Json} {p : Json × JObj}
    (hp : p ∈ (handleData st dv).current_data) :
    p ∈ st.current_data ∨ p.1 ∈ dataSyms dv := by
  cases dv with
  | obj tkvs => exact writeTicker_keys (by simpa [handleData] using hp)
  | arr items =>
    simpa [dataSyms] using processItems_keys items st p (by simpa [handleData] using hp)
  | null => exact Or.inl (by simpa [handleData] using hp)
  | bool b => exact Or.inl (by simpa [handleData] using hp)
  | num me e => exact Or.inl (by simpa [handleData] using hp)
  | str s => exact Or.inl (by simpa [handleData] using hp)

theorem topicStage_keys {st : CollectorState} {kvs : JObj} {p : Json × JObj}
    (hp : p ∈ (topicStage st kvs).current_data) :
    p ∈ st.current_data ∨
      p.1 ∈ (match kvs.lookup "data" with | some dv => dataSyms dv | none => []) := by
  unfold topicStage at hp
  cases ht : kvs.lookup "topic" with
  | none => simp only [ht] at hp; exact Or.inl hp
  | some t =>
    simp only [ht] at hp
    by_cases htt : topicHasTickers t
    · rw [if_pos htt] at hp
      unfold dataStage at hp
      cases hd : kvs.lookup "data" with
      | none => simp only [hd] at hp; exact Or.inl hp
      | some dv =>
        simp only [hd] at hp
        simpa [hd] using handleData_keys hp
    · rw [if_neg htt] at hp; exact Or.inl hp

theorem on_message_keys {st : CollectorState} {m : Option Json} {p : Json × JObj}
    (hp : p ∈ (on_message st m).current_data) :
    p ∈ st.current_data ∨ p.1 ∈ frameSymbols m := by
  cases m with
  | none => exact Or.inl (by simpa [on_message] using hp)
  | some j =>
    cases j with
    | obj kvs =>
      cases hs : kvs.lookup "success" with
      | none =>
        simp only [on_message, hs] at hp
        simpa [frameSymbols] using topicStage_keys hp
      | some v =>
        by_cases hv : v.truthy
        · simp only [on_message, hs, hv, if_pos] at hp
          exact Or.inl hp
        · simp only [on_message, hs, hv, if_neg, Bool.false_eq_true, not_false_iff] at hp
          simpa [frameSymbols] using topicStage_keys hp
    | null => exact Or.inl (by simpa [on_message] using hp)
    | bool b => exact Or.inl (by simpa [on_message] using hp)
    | num me e => exact Or.inl (by simpa [on_message] using hp)
    | str s => exact Or.inl (by simpa [on_message] using hp)
    | arr xs => exact Or.inl (by simpa [on_message] using hp)

theorem step_keysSubscribed (st : CollectorState) (e : Event)
    (hst : storeKeysSubscribed st = true) (he : eventOK st e = true) :
    storeKeysSubscribed (step st e) = true := by
  cases e with
  | connOpen batch =>
    simp only [storeKeysSubscribed, List.all_eq_true] at hst ⊢
    intro p hp
    simp only [step, on_open] at hp ⊢
    exact any_setUpdate batch _ _ (hst p hp)
  | msgRecv m =>
    simp only [storeKeysSubscribed, List.all_eq_true] at hst ⊢
    intro p hp
    simp only [step] at hp ⊢
    rw [(on_message_fields st m).1]
    rcases on_message_keys hp with h | h
    · exact hst p h
    · simp only [eventOK, List.all_eq_true] at he
      exact he p.1 h
  | connClose i =>
    simp only [storeKeysSubscribed, List.all_eq_true] at hst ⊢
    intro p hp
    simp only [step, on_close] at hp ⊢
    exact hst p hp
  | connStart i =>
    simp only [storeKeysSubscribed, List.all_eq_true] at hst ⊢
    intro p hp
    simp only [step, registerConn] at hp ⊢
    exact hst p hp

theorem goodTrace_keysSubscribed (evs : List Event) : ∀ st : CollectorState,
    GoodTrace st evs → storeKeysSubscribed st = true →
    storeKeysSubscribed (run st evs) = true := by
  induction evs with
  | nil => intro st _ h; simpa [run] using h
  | cons e rest ih =>
    intro st hg h
    cases hg with
    | cons he hrest =>
      simpa [run] using ih (step st e) hrest (step_keysSubscribed st e h he)

/-- Claim C5 (refutation): the handler performs no subscription check — a
reachable state (one delivered frame carrying symbol `ZZZ`, nothing subscribed)
has a store key that is not a subscribed symbol. -/
theorem c5_counterexample :
    (run initState [Event.msgRecv (some c5frame)]).current_data
      = [(Json.str "ZZZ", [("symbol", Json.str "ZZZ")])] ∧
    (run initState [Event.msgRecv (some c5frame)]).subscribed_tickers = [] ∧
    storeKeysSubscribed (run initState [Event.msgRecv (some c5frame)]) = false :=
  ⟨rfl, rfl, rfl⟩

/-- Claim C5 (amended): if every delivered data frame carries only symbols that
are already subscribed at its delivery time (which a faithful venue guarantees,
since the subscription set is extended before the subscribe request is sent),
then in every reachable state every store key is a subscribed symbol. -/
theorem c5_theorem (evs : List Event) (h : GoodTrace initState evs) :
    storeKeysSubscribed (run initState evs) = true :=
  goodTrace_keysSubscribed evs initState h rfl

/-- Witness for C5's amended theorem on a concrete well-behaved trace. -/
theorem c5_witness :
    GoodTrace initState c5trace ∧ storeKeysSubscribed (run initState c5trace) = true := by
  have h : GoodTrace initState c5trace :=
    GoodTrace.cons (by decide) (GoodTrace.cons (by decide) (GoodTrace.nil _))
  exact ⟨h, c5_theorem c5trace h⟩

theorem scanTickers_eq (u : String) (l : List String) :
    scanTickers u l = l.find? (fun t => u == replaceUSDT t) := by
  induction l with
  | nil => rfl
  | cons t rest ih =>
    simp only [scanTickers, List.find?]
    cases h : (u == replaceUSDT t) with
    | true => simp [h]
    | false => simp [h, ih]

/-- Claim C4 (refutation): with `USDTBRL` subscribed, the code resolves input
`BRL` to `USDTBRL` because `str.replace` removes the non-suffix `USDT`
occurrence, whereas the claim's suffix-stripping step 3 matches nothing and
step 4 returns `BRL` unchanged. -/
theorem c4_counterexample :
    find_ticker ["USDTBRL"] "BRL" = "USDTBRL" ∧ resolveSpec ["USDTBRL"] "BRL" = "BRL" :=
  ⟨by decide, by decide⟩

/-- Claim C4 (amended): resolution is total and follows the claimed order —
exact match, then the `USDT`-suffix addition, then the first subscribed symbol
which, after removing every occurrence of `USDT` (not only a suffix), equals
the normalized input, else the normalized input unchanged — and the claim's
three concrete examples hold. -/
theorem c4_theorem (subscribed : List String) (input : String) :
    find_ticker subscribed input = resolveAmended subscribed input ∧
    find_ticker ["BTCUSDT"] "btc" = "BTCUSDT" ∧
    find_ticker ["BTCUSDT"] "BTCUSDT" = "BTCUSDT" ∧
    find_ticker [] "ZZZ" = "ZZZ" := by
  refine ⟨?_, by decide, by decide, by decide⟩
  simp only [find_ticker, resolveAmended, scanTickers_eq]
  cases h : List.find? (fun t => pyUpperNoSpaces input == replaceUSDT t) subscribed with
  | none => simp [h]
  | some t => simp [h]

theorem chunkFuel_nil {α : Type} (k fuel : ℕ) : chunkFuel k fuel ([] : List α) = [] := by
  cases fuel <;> rfl

theorem chunkFuel_join {α : Type} (k : ℕ) (hk : 1 ≤ k) :
    ∀ (fuel : ℕ) (l : List α), l.length ≤ fuel → (chunkFuel k fuel l).flatten = l := by
  intro fuel
  induction fuel with
  | zero =>
    intro l hl
    have h0 : l = [] := List.eq_nil_of_length_eq_zero (Nat.le_zero.mp hl)
    subst h0; rfl
  | succ fuel ih =>
    intro l hl
    cases l with
    | nil => rfl
    | cons c cs =>
      simp only [chunkFuel, List.flatten_cons]
      rw [ih ((c :: cs).drop k)
        (by rw [List.length_drop]; simp only [List.length_cons] at hl ⊢; omega)]
      exact List.take_append_drop k (c :: cs)

theorem chunkFuel_length {α : Type} (k : ℕ) (hk : 1 ≤ k) :
    ∀ (fuel : ℕ) (l : List α), l.length ≤ fuel →
      (chunkFuel k fuel l).length = (l.length + k - 1) / k := by
  intro fuel
  induction fuel with
  | zero =>
    intro l hl
    have h0 : l = [] := List.eq_nil_of_length_eq_zero (Nat.le_zero.mp hl)
    subst h0
    show (0 : ℕ) = (0 + k - 1) / k
    rw [Nat.zero_add]
    exact (Nat.div_eq_of_lt (by omega)).symm
  | succ fuel ih =>
    intro l hl
    cases l with
    | nil =>
      show (0 : ℕ) = (0 + k - 1) / k
      rw [Nat.zero_add]
      exact (Nat.div_eq_of_lt (by omega)).symm
    | cons c cs =>
      have hdl : ((c :: cs).drop k).length ≤ fuel := by
        rw [List.length_drop]; simp only [List.length_cons] at hl ⊢; omega
      have hrec := ih ((c :: cs).drop k) hdl
      simp only [chunkFuel, List.length_cons, hrec, List.length_drop]
      rcases Nat.lt_or_ge (cs.length + 1) k with hnk | hnk
      · have h1 : cs.length + 1 - k = 0 := by omega
        have hr : cs.length + 1 + k - 1 = (cs.length + 1 - 1) + k := by omega
        rw [h1, hr, Nat.add_div_right _ (by omega : 0 < k),
          Nat.div_eq_of_lt (by omega : cs.length + 1 - 1 < k), Nat.zero_add,
          Nat.div_eq_of_lt (by omega : k - 1 < k)]
      · have h1 : cs.length + 1 - k + k - 1 = cs.length + 1 - 1 := by omega
        have hr : cs.length + 1 + k - 1 = (cs.length + 1 - 1) + k := by omega
        rw [h1, hr, Nat.add_div_right _ (by omega : 0 < k)]

theorem chunkFuel_get {α : Type} (k : ℕ) (hk : 1 ≤ k) :
    ∀ (fuel i : ℕ) (l : List α), l.length ≤ fuel → i < (chunkFuel k fuel l).length →
      (chunkFuel k fuel l)[i]? = some ((l.drop (i * k)).take k) := by
  intro fuel
  induction fuel with
  | zero =>
    intro i l hl hi
    have h0 : l = [] := List.eq_nil_of_length_eq_zero (Nat.le_zero.mp hl)
    subst h0
    simp [chunkFuel] at hi
  | succ fuel ih =>
    intro i l hl hi
    cases l with
    | nil => simp [chunkFuel] at hi
    | cons c cs =>
      cases i with
      | zero => simp [chunkFuel]
      | succ i =>
        have hdl : ((c :: cs).drop k).length ≤ fuel := by
          rw [List.length_drop]; simp only [List.length_cons] at hl ⊢; omega
        have hi2 : i < (chunkFuel k fuel ((c :: cs).drop k)).length := by
          simp only [chunkFuel, List.length_cons] at hi
          omega
        simp only [chunkFuel, List.getElem?_cons_succ]
        rw [ih i ((c :: cs).drop k) hdl hi2, List.drop_drop, Nat.succ_mul,
          Nat.add_comm k (i * k)]

theorem chunkFuel_dropLast {α : Type} (k : ℕ) (hk : 1 ≤ k) :
    ∀ (fuel : ℕ) (l : List α), l.length ≤ fuel →
      ((chunkFuel k fuel l).dropLast.all (fun b => b.length == k)) = true := by
  intro fuel
  induction fuel with
  | zero =>
    intro l hl
    have h0 : l = [] := List.eq_nil_of_length_eq_zero (Nat.le_zero.mp hl)
    subst h0; rfl
  | succ fuel ih =>
    intro l hl
    cases l with
    | nil => rfl
    | cons c cs =>
      have hdl : ((c :: cs).drop k).length ≤ fuel := by
        rw [List.length_drop]; simp only [List.length_cons] at hl ⊢; omega
      simp only [chunkFuel]
      cases hr : chunkFuel k fuel ((c :: cs).drop k) with
      | nil => rfl
      | cons r rs =>
        have hne : (c :: cs).drop k ≠ [] := by
          intro h0
          rw [h0, chunkFuel_nil] at hr
          cases hr
        have hlen : k < (c :: cs).length := by
          by_contra hcon
          push_neg at hcon
          exact hne (List.drop_eq_nil_of_le hcon)
        show (((c :: cs).take k :: (r :: rs).dropLast).all (fun b => b.length == k)) = true
        simp only [List.all_cons, Bool.and_eq_true]
        constructor
        · have hlt : ((c :: cs).take k).length = k := by
            rw [List.length_take]
            simp only [List.length_cons] at hlen ⊢
            omega
          simp [hlt]
        · have hrec := ih ((c :: cs).drop k) hdl
          rw [hr] at hrec
          exact hrec

/-- Claim C3: for every positive batch size k, partitioning yields ⌈n/k⌉
contiguous batches — batch i is the slice [i·k, i·k+k) — whose concatenation is
exactly the original ordered universe, every batch except possibly the last
having size k. -/
theorem c3_theorem (l : List String) (k i : ℕ) (hk : 1 ≤ k)
    (hi : i < (create_batches l k).length) :
    (create_batches l k).flatten = l ∧
    (create_batches l k).length = (l.length + k - 1) / k ∧
    (create_batches l k)[i]? = some ((l.drop (i * k)).take k) ∧
    ((create_batches l k).dropLast.all (fun b => b.length == k)) = true := by
  have hk0 : ¬(k = 0) := by omega
  simp only [create_batches, if_neg hk0] at hi ⊢
  exact ⟨chunkFuel_join k hk l.length l le_rfl,
         chunkFuel_length k hk l.length l le_rfl,
         chunkFuel_get k hk l.length i l le_rfl hi,
         chunkFuel_dropLast k hk l.length l le_rfl⟩

/-- Witness for C3 at a three-symbol universe with batch size 2 (batch index 1). -/
theorem c3_witness :
    (1 ≤ 2 ∧ 1 < (create_batches ["BTCUSDT", "ETHUSDT", "ADAUSDT"] 2).length) ∧
    ((create_batches ["BTCUSDT", "ETHUSDT", "ADAUSDT"] 2).flatten
        = ["BTCUSDT", "ETHUSDT", "ADAUSDT"] ∧
      (create_batches ["BTCUSDT", "ETHUSDT", "ADAUSDT"] 2).length
        = (["BTCUSDT", "ETHUSDT", "ADAUSDT"].length + 2 - 1) / 2 ∧
      (create_batches ["BTCUSDT", "ETHUSDT", "ADAUSDT"] 2)[1]?
        = some ((["BTCUSDT", "ETHUSDT", "ADAUSDT"].drop (1 * 2)).take 2) ∧
      ((create_batches ["BTCUSDT", "ETHUSDT", "ADAUSDT"] 2).dropLast.all
        (fun b => b.length == 2)) = true) :=
  ⟨⟨by decide, by decide⟩,
   c3_theorem ["BTCUSDT", "ETHUSDT", "ADAUSDT"] 2 1 (by decide) (by decide)⟩

theorem tsField?_of_tsOK {d : JObj} (h : tsOK d = true) :
    tsField? d = Except.ok (tsDerived d) := by
  unfold tsOK at h
  unfold tsField? tsDerived
  cases ht : d.lookup "ts" with
  | none => rfl
  | some v =>
    simp only [ht] at h
    cases v with
    | num m e =>
      by_cases hm : m = 0
      · subst hm; simp [Json.truthy]
      · have hm2 : (m != 0) = true := by simpa using hm
        simp [Json.truthy, hm2]
    | bool b => cases b <;> simp [Json.truthy]
    | null => simp [Json.truthy]
    | str t =>
      simp only [Json.truthy, Bool.or_false, Bool.not_eq_true'] at h
      simp [Json.truthy, h]
    | arr xs =>
      simp only [Json.truthy, Bool.or_false, Bool.not_eq_true'] at h
      simp [Json.truthy, h]
    | obj kvs =>
      simp only [Json.truthy, Bool.or_false, Bool.not_eq_true'] at h
      simp [Json.truthy, h]

theorem pctField?_of_pctOK {d : JObj} (h : pctOK d = true) :
    pctField? ((d.lookup "price24hPcnt").getD (Json.str "N/A")) = Except.ok (pctDerived d) := by
  unfold pctOK at h
  unfold pctField? pctDerived
  cases hp : d.lookup "price24hPcnt" with
  | none => simp [Json.isNA]
  | some raw =>
    simp only [hp, Option.getD_some] at h ⊢
    by_cases hna : raw.isNA
    · simp [hna]
    · rw [Bool.not_eq_true] at hna
      simp only [hna, Bool.false_or] at h
      cases hf : toFloat? raw with
      | none => rw [hf] at h; cases h
      | some q => simp [hna, hf]

/-- Claim C2 (refutation): with a stored snapshot whose `price24hPcnt` field is
the unparsable string "abc", the point lookup raises `ValueError` from `float`
instead of returning a successful result. -/
theorem c2_counterexample :
    get_ticker_data c2state "BTCUSDT" = Except.error PyErr.valueError ∧
    queryThrew (get_ticker_data c2state "BTCUSDT") = true :=
  ⟨rfl, rfl⟩

/-- Claim C2 (amended): when the snapshot the query reads (if any) has a
`float`-convertible percent field and a numeric-or-absent `ts` field, the point
lookup never raises; with no store entry for the resolved symbol it returns the
structured failure result carrying the attempted symbol, the resolved symbol,
`len(subscribed_tickers)` at call time, and the batch progress, and with an
entry it returns a successful result.  (Unrestricted store contents can make
the success path raise, as the refutation shows.) -/
theorem c2_theorem (st : CollectorState) (symbol : String)
    (h : snapshotBenign st symbol = true) :
    queryThrew (get_ticker_data st symbol) = false ∧
    failurePayload (get_ticker_data st symbol) =
      (match storeRead st.current_data (find_ticker st.subscribed_tickers symbol) with
       | none => some
           { attempted := symbol
             correct_symbol := find_ticker st.subscribed_tickers symbol
             tip_subscribed_count := st.subscribed_tickers.length
             progress_completed := st.completed_batches
             progress_total := st.total_batches }
       | some _ => none) := by
  unfold snapshotBenign at h
  unfold get_ticker_data
  cases hr : storeRead st.current_data (find_ticker st.subscribed_tickers symbol) with
  | none => simp [queryThrew, failurePayload]
  | some d =>
    simp only [hr] at h
    obtain ⟨hts, hpct⟩ : tsOK d = true ∧ pctOK d = true := by simpa using h
    simp [tsField?_of_tsOK hts, pctField?_of_pctOK hpct, queryThrew, failurePayload]

/-- Witness for C2's amended theorem on a concrete benign state. -/
theorem c2_witness :
    snapshotBenign c2goodState "btc" = true ∧
    (queryThrew (get_ticker_data c2goodState "btc") = false ∧
      failurePayload (get_ticker_data c2goodState "btc") =
        (match storeRead c2goodState.current_data
            (find_ticker c2goodState.subscribed_tickers "btc") with
         | none => some
             { attempted := "btc"
               correct_symbol := find_ticker c2goodState.subscribed_tickers "btc"
               tip_subscribed_count := c2goodState.subscribed_tickers.length
               progress_completed := c2goodState.completed_batches
               progress_total := c2goodState.total_batches }
         | some _ => none)) :=
  ⟨rfl, c2_theorem c2goodState "btc" rfl⟩

/-- Claim C6 (refutation): a stored snapshot whose `ts` field is present but
zero yields a result whose timestamp is marked `'N/A'`, not a formatted
timestamp derived from the epoch-millis field as the claim requires for every
present `ts`. -/
theorem c6_counterexample :
    c6entry.lookup "ts" = some (Json.num 0 0) ∧
    resultTs (get_ticker_data c6state "BTCUSDT") = some TsField.na :=
  ⟨rfl, rfl⟩

/-- Claim C6 (amended): for a stored snapshot that cannot make formatting raise,
the successful result's timestamp is formatted from `ts/1000` exactly when `ts`
is present and truthy (absent or falsy — e.g. zero — yields `'N/A'`), and the
derived percent field is `float(raw) * 100` exactly when the raw percent field
is present and not the literal `'N/A'` (omitted when absent), as captured by
`tsDerived` and `pctDerived`. -/
theorem c6_theorem (st : CollectorState) (symbol : String) (d : JObj)
    (hd : storeRead st.current_data (find_ticker st.subscribed_tickers symbol) = some d)
    (hts : tsOK d = true) (hpct : pctOK d = true) :
    resultTs (get_ticker_data st symbol) = some (tsDerived d) ∧
    resultPct (get_ticker_data st symbol) = some (pctDerived d) := by
  unfold get_ticker_data
  simp [hd, tsField?_of_tsOK hts, pctField?_of_pctOK hpct, resultTs, resultPct]

/-- Witness for C6's amended theorem on a concrete snapshot. -/
theorem c6_witness :
    (storeRead c6goodState.current_data
        (find_ticker c6goodState.subscribed_tickers "ETHUSDT") = some c6goodEntry ∧
      tsOK c6goodEntry = true ∧ pctOK c6goodEntry = true) ∧
    (resultTs (get_ticker_data c6goodState "ETHUSDT") = some (tsDerived c6goodEntry) ∧
      resultPct (get_ticker_data c6goodState "ETHUSDT") = some (pctDerived c6goodEntry)) :=
  ⟨⟨rfl, rfl, rfl⟩, c6_theorem c6goodState "ETHUSDT" c6goodEntry rfl rfl rfl⟩

/-- Claim C8: when discovery fails — a network fault, a non-200 response, or a
malformed payload — the failure is fatal to the pipeline: the symbol list comes
back as the empty failure sentinel, and `start_collection` creates no batches
and starts no websocket subscriptions. -/
theorem c8_theorem (resp : Option HttpResponse) (h : discoveryFailed resp = true) :
    fetch_spot_tickers resp = [] ∧
    start_collection resp =
      { tickers := [], batches := [], total_batches := 0, websockets_started := false } := by
  have hf : fetch_spot_tickers resp = [] := by
    cases resp with
    | none => rfl
    | some r =>
      unfold discoveryFailed at h
      unfold fetch_spot_tickers
      by_cases hs : r.status_code = 200
      · simp only [hs, beq_self_eq_true, Bool.not_true, Bool.false_or, Option.isNone_iff_eq_none] at h
        simp [hs, h]
      · simp [hs]
  refine ⟨hf, ?_⟩
  unfold start_collection
  rw [hf]
  rfl

/-- Witness for C8 at a concrete 404 response. -/
theorem c8_witness :
    discoveryFailed (some ⟨404, some Json.null⟩) = true ∧
    (fetch_spot_tickers (some ⟨404, some Json.null⟩) = [] ∧
      start_collection (some ⟨404, some Json.null⟩) =
        { tickers := [], batches := [], total_batches := 0, websockets_started := false }) :=
  ⟨rfl, c8_theorem (some ⟨404, some Json.null⟩) rfl⟩

/-- Witness for C7's amended theorem at concrete frames. -/
theorem c7_witness :
    goodFrame (some (Json.str "noise")) = false ∧
    (on_message initState (some (Json.str "noise")) = initState ∧
      (on_message initState (some c7frame)).subscribed_tickers = initState.subscribed_tickers ∧
      (on_message initState (some c7frame)).completed_batches = initState.completed_batches ∧
      (on_message initState (some c7frame)).total_batches = initState.total_batches) :=
  ⟨rfl, c7_theorem initState (some (Json.str "noise")) (some c7frame) rfl⟩

end CryptoParser
